import Mathlib

/-!
Shallow embedding of `src/apps.py`, the PCOS Prediction & Lifestyle Advisor
Streamlit application.

Pure script functions become Lean functions on exact rationals.  The
`st.session_state` dictionary becomes an explicit `SessionState` record in
which an absent key is `none`, and every button or render handler that
mutates session state becomes one case of an explicit event-step function.
`random.choice` is modelled by passing the chosen index explicitly: a call
`random.choice(lst)` with random draw `k` returns `lst[k % len(lst)]`, so
every element of the list is reachable by some draw and nothing outside the
list is.
-/

namespace PCOS

/-! ## Dataset loading and normalization (`load_data`, apps.py lines 54-95) -/

/-- One row of `Cleaned-Data.csv` as raw text cells.  A pandas missing cell
round-trips through `astype(str)` as the literal string `nan`, which none of
the lookups below recognize, so plain strings suffice to model missing
data. -/
structure RawRow where
  pcos : String
  age : String
  weight_kg : String
  sleep_hours : String
  exercise_duration : String
  family_history_pcos : String
  menstrual_irregularity : String
  hormonal_imbalance : String
  hirsutism : String
  mental_health : String
  insulin_resistance : String
  diabetes : String
  smoking : String
deriving DecidableEq

/-- Lower-casing of a text cell, character by character. -/
def lowerStr (s : String) : String := String.mk (s.toList.map Char.toLower)

/-- `astype(str).str.lower().map(yes: 1, no: 0)` on a cell (lines 57, 67):
case-insensitive exact match, anything else becomes missing. -/
def mapYesNo (s : String) : Option ℚ :=
  if lowerStr s = "yes" then some 1
  else if lowerStr s = "no" then some 0
  else none

/-- Numeric value of a run of decimal digits. -/
def natOfDigits (cs : List Char) : Nat :=
  cs.foldl (fun a c => a * 10 + (c.toNat - 48)) 0

/-- The first maximal run of decimal digits in the text, as produced by the
regular expression extraction on line 69. -/
def firstDigitRun : List Char → Option (List Char)
  | [] => none
  | c :: cs => if c.isDigit then some (c :: cs.takeWhile Char.isDigit) else firstDigitRun cs

/-- `df[Age].astype(str).str.extract(digits).astype(float)` (line 69): the
first run of decimal digits, or missing when the cell has no digit. -/
def extractAge (s : String) : Option ℚ :=
  (firstDigitRun s.toList).map (fun ds => (natOfDigits ds : ℚ))

/-- Split a character list at every occurrence of the separator. -/
def splitOnChar (sep : Char) : List Char → List (List Char)
  | [] => [[]]
  | c :: cs =>
      match splitOnChar sep cs with
      | [] => [[]]
      | r :: rs => if c = sep then [] :: r :: rs else (c :: r) :: rs

/-- `pd.to_numeric(errors := coerce)` on a text cell (line 92), restricted to
plain decimal literals: an optional sign, digits, an optional fractional
part.  Anything else (in particular the string `nan`) becomes missing. -/
def parseNum (s : String) : Option ℚ :=
  let (neg, cs) :=
    match s.toList with
    | '-' :: rest => (true, rest)
    | cs0 => (false, cs0)
  let q : Option ℚ :=
    match splitOnChar '.' cs with
    | [a] => if a ≠ [] ∧ a.all Char.isDigit then some ((natOfDigits a : ℚ)) else none
    | [a, b] =>
        if (a ++ b) ≠ [] ∧ (a ++ b).all Char.isDigit then
          some ((natOfDigits a : ℚ) + (natOfDigits b : ℚ) / (10 : ℚ) ^ b.length)
        else none
    | _ => none
  q.map (fun v => if neg then -v else v)

/-- The `Sleep_Hours` replacement table (lines 71-76). -/
def sleepTable : List (String × ℚ) :=
  [("Less than 6 hours", 5), ("6-8 hours", 7), ("9-12 hours", 10.5), ("More than 8 hours", 9)]

/-- A `Sleep_Hours` cell after `replace` followed by numeric coercion:
a recognized bucket label maps through the table, any other cell is coerced
as a number or becomes missing. -/
def sleepValue (s : String) : Option ℚ :=
  match sleepTable.lookup s with
  | some v => some v
  | none => parseNum s

/-- The `Exercise_Duration` replacement table (lines 78-83). -/
def exerciseTable : List (String × ℚ) :=
  [("Less than 30 minutes", 15), ("30 minutes", 30), ("30 minutes to 1 hour", 45),
   ("More than 1 hour", 75)]

/-- An `Exercise_Duration` cell after `replace` followed by numeric
coercion. -/
def exerciseValue (s : String) : Option ℚ :=
  match exerciseTable.lookup s with
  | some v => some v
  | none => parseNum s

/-- Per-column coercion of one row into the 12 feature columns, in the order
of the `features` list (lines 85-90): Age, Weight_kg, Sleep_Hours,
Exercise_Duration, then the eight yes/no indicator columns. -/
def coerceRow (r : RawRow) : List (Option ℚ) :=
  [extractAge r.age, parseNum r.weight_kg, sleepValue r.sleep_hours,
   exerciseValue r.exercise_duration,
   mapYesNo r.family_history_pcos, mapYesNo r.menstrual_irregularity,
   mapYesNo r.hormonal_imbalance, mapYesNo r.hirsutism, mapYesNo r.mental_health,
   mapYesNo r.insulin_resistance, mapYesNo r.diabetes, mapYesNo r.smoking]

/-- Rows kept by the label mapping and `dropna(subset := [PCOS])`
(lines 57-58): exactly those whose PCOS cell maps to yes or no. -/
def retained (rows : List RawRow) : List RawRow :=
  rows.filter (fun r => (mapYesNo r.pcos).isSome)

/-- The non-missing coerced values of feature column `j` over a row set;
the imputation median is computed over this list (line 93). -/
def columnVals (rows : List RawRow) (j : Nat) : List ℚ :=
  (rows.map (fun r => (coerceRow r).getD j none)).filterMap id

/-- Insertion into a sorted list, for the median computation. -/
def insertSorted (x : ℚ) : List ℚ → List ℚ
  | [] => [x]
  | y :: ys => if x ≤ y then x :: y :: ys else y :: insertSorted x ys

/-- Insertion sort, for the median computation. -/
def sortList (l : List ℚ) : List ℚ := l.foldr insertSorted []

/-- Median of a sorted list: the middle element for odd length, the mean of
the two middle elements for even length, as pandas `median` computes it. -/
def medianOfSorted (s : List ℚ) : ℚ :=
  if s.length % 2 = 1 then s.getD (s.length / 2) 0
  else (s.getD (s.length / 2 - 1) 0 + s.getD (s.length / 2) 0) / 2

/-- `median` of a column, `none` when the column has no non-missing value
(pandas returns NaN there and `fillna` then leaves the cell missing). -/
def median (l : List ℚ) : Option ℚ :=
  match l with
  | [] => none
  | x :: xs => some (medianOfSorted (x :: xs))

/-- `fillna`: keep a present value, otherwise fall back to the imputation
value when one exists. -/
def fillCell (c m : Option ℚ) : Option ℚ :=
  match c with
  | some v => some v
  | none => m

/-- Feature `j` of one retained row after coercion and median imputation
(lines 92-93). -/
def normalizeCell (rows : List RawRow) (r : RawRow) (j : Nat) : Option ℚ :=
  fillCell ((coerceRow r).getD j none) (median (columnVals (retained rows) j))

/-- The full 12-entry normalized feature row. -/
def normalizeRow (rows : List RawRow) (r : RawRow) : List (Option ℚ) :=
  (List.range 12).map (normalizeCell rows r)

/-! ## Classifier scoring (apps.py lines 106-113, 236-237)

The classifier itself is external library code (an sklearn
`RandomForestClassifier` fitted on a CSV that is not part of the sources),
so it is embedded abstractly: the model is any function giving the
positive-class probability, `predict_proba` yields the pair
`[1 - p, p]` for the sorted class list `[0, 1]`, and `predict` takes the
argmax over that pair with ties resolved to the first class, which is the
library's documented behaviour for classifiers. -/

/-- An abstract fitted binary classifier: its positive-class probability
function on 12-entry feature vectors, with probabilities in `[0, 1]`. -/
structure RFModel where
  proba1 : List ℚ → ℚ
  nonneg : ∀ x, 0 ≤ proba1 x
  le_one : ∀ x, proba1 x ≤ 1

/-- `model.predict(input_df)[0]` (line 236): the argmax of
`[1 - p, p]`, ties to the first class, so label 1 exactly when
`1 - p < p`. -/
def predict (m : RFModel) (x : List ℚ) : Nat :=
  if 1 - m.proba1 x < m.proba1 x then 1 else 0

/-- `model.predict_proba(input_df)[0][1] * 100` (line 237): the
positive-class probability scaled to a percentage. -/
def predictProbaPct (m : RFModel) (x : List ℚ) : ℚ :=
  m.proba1 x * 100

/-! ## Step 3 input assembly (apps.py lines 202-238) -/

/-- The thirteen answers collected on the input step: five sliders and
eight yes/no select boxes. -/
structure Answers where
  age : ℚ
  weight : ℚ
  height : ℚ
  sleep : ℚ
  exercise_minutes : ℚ
  family : Bool
  menstrual : Bool
  hormonal : Bool
  hirsutism : Bool
  mental : Bool
  insulin : Bool
  diabetes : Bool
  smoking : Bool

/-- The single-row input frame of lines 221-234, projected to the
`features` column order. -/
def toFeatureVec (a : Answers) : List ℚ :=
  [a.age, a.weight, a.sleep, a.exercise_minutes,
   if a.family then 1 else 0, if a.menstrual then 1 else 0,
   if a.hormonal then 1 else 0, if a.hirsutism then 1 else 0,
   if a.mental then 1 else 0, if a.insulin then 1 else 0,
   if a.diabetes then 1 else 0, if a.smoking then 1 else 0]

/-- `bmi = weight / ((height / 100) ** 2)` (line 219). -/
def bmi (weight height : ℚ) : ℚ :=
  weight / ((height / 100) ^ 2)

/-! ## Weekly exercise planner (apps.py lines 307-438) -/

/-- The three fitness tiers of the radio button on line 311. -/
inductive Level where
  | Beginner
  | Intermediate
  | Advanced
deriving DecidableEq

/-- The three exercise categories of each tier's pool. -/
inductive Category where
  | Cardio
  | Strength
  | Flexibility
deriving DecidableEq

/-- The `exercise_pool` dictionary (lines 314-357). -/
def exercisePool : Level → Category → List String
  | .Beginner, .Cardio =>
      ["🚶 Brisk Walking (25 mins) – Improves insulin sensitivity",
       "🚴 Light Cycling (20 mins) – Supports weight balance"]
  | .Beginner, .Strength =>
      ["🧘 Bodyweight Squats (2x12) – Hormonal balance support",
       "🧍 Wall Push-ups (2x10) – Metabolism boost"]
  | .Beginner, .Flexibility =>
      ["🌸 PCOS Yoga Flow (20 mins) – Stress reduction",
       "🧘 Stretching Routine (15 mins) – Cortisol control"]
  | .Intermediate, .Cardio =>
      ["🏃 Jogging (30 mins) – Fat metabolism boost",
       "💃 Dance Workout (30 mins) – Hormone regulation"]
  | .Intermediate, .Strength =>
      ["🔥 Lunges (3x12) – Lower body strength",
       "💪 Plank (3x30 sec) – Core stability"]
  | .Intermediate, .Flexibility =>
      ["🧘 Yoga Flow (25 mins) – Stress & cortisol reduction",
       "🌿 Mobility Drills (20 mins)"]
  | .Advanced, .Cardio =>
      ["⚡ HIIT (30 mins) – Insulin resistance improvement",
       "🏃 Sprint Intervals (25 mins)"]
  | .Advanced, .Strength =>
      ["🔥 Burpees (3x15) – Fat burning",
       "🏋 Weighted Squats (3x12)"]
  | .Advanced, .Flexibility =>
      ["🧘 Power Yoga (30 mins)",
       "🌿 Deep Stretching (25 mins)"]

/-- The `days` list (line 359). -/
def days : List String :=
  ["Monday", "Tuesday", "Wednesday", "Thursday", "Friday", "Saturday", "Sunday"]

/-- The fixed Sunday entry (line 367). -/
def sundayWorkout : String := "🛌 Active Recovery – Light Yoga / Meditation"

/-- `random.choice(lst)` with explicit draw `k`: the element at index
`k % len(lst)`. -/
def choiceOf (l : List String) (k : Nat) : String :=
  l.getD (k % l.length) ""

/-- The category the modulo-3 rule assigns to day index `i` inside
`generate_week_plan` (lines 368-373). -/
def dayCategory (i : Nat) : Category :=
  if i % 3 = 0 then .Cardio else if i % 3 = 1 then .Strength else .Flexibility

/-- The entry `generate_week_plan` produces for day index `i` given draw
`k` (lines 365-375): Sunday is the fixed recovery entry, otherwise a draw
from the category selected by `i % 3`. -/
def planDay (level : Level) (i : Nat) (k : Nat) : String :=
  if days.getD i "" == "Sunday" then sundayWorkout
  else if i % 3 == 0 then choiceOf (exercisePool level .Cardio) k
  else if i % 3 == 1 then choiceOf (exercisePool level .Strength) k
  else choiceOf (exercisePool level .Flexibility) k

/-- `generate_week_plan` (lines 361-377) with one explicit draw per day. -/
def generateWeekPlan (level : Level) (c : Nat → Nat) : List String :=
  (List.range days.length).map (fun i => planDay level i (c i))

/-- The list the `Change Exercise` button draws its category from
(line 418). -/
def categories : List Category :=
  [.Cardio, .Strength, .Flexibility]

/-- The `Change Exercise` handler for day `i` (lines 416-419): draw a
category uniformly among the three, then draw an entry from that category's
pool of the currently selected tier, and overwrite only slot `i`. -/
def changeExercise (level : Level) (plan : List String) (i catDraw exDraw : Nat) :
    List String :=
  let category := categories.getD (catDraw % categories.length) .Cardio
  plan.set i (choiceOf (exercisePool level category) exDraw)

/-! ## Weekly food planner (apps.py lines 446-581) -/

/-- The diet preference radio button (lines 450-451). -/
inductive Pref where
  | Vegetarian
  | NonVegetarian
deriving DecidableEq

/-- The four meal types of each day's plan. -/
inductive MealType where
  | Breakfast
  | Lunch
  | Dinner
  | Snacks
deriving DecidableEq

/-- The `food_db` dictionary (lines 457-511). -/
def foodDb : Pref → MealType → List String
  | .Vegetarian, .Breakfast =>
      ["🥣 Oats with Chia & Nuts – High fiber, controls insulin",
       "🥗 Vegetable Upma – Low GI carbs",
       "🍓 Greek Yogurt + Berries – Protein rich",
       "🥑 Avocado Toast (Multigrain)"]
  | .Vegetarian, .Lunch =>
      ["🍛 Brown Rice + Dal + Veggies",
       "🥗 Quinoa Salad + Paneer",
       "🌯 Multigrain Roti + Sabzi + Curd",
       "🥦 Millet Bowl + Stir Fry Veggies"]
  | .Vegetarian, .Dinner =>
      ["🥣 Vegetable Soup + Sprouts Salad",
       "🥗 Paneer Stir Fry + Salad",
       "🥑 Grilled Tofu + Sauteed Veggies",
       "🌮 Lettuce Wraps + Beans"]
  | .Vegetarian, .Snacks =>
      ["🥜 Almonds & Walnuts",
       "🍎 Apple + Peanut Butter",
       "🥕 Carrot & Hummus",
       "🍵 Green Tea + Roasted Chana"]
  | .NonVegetarian, .Breakfast =>
      ["🍳 Boiled Eggs + Multigrain Toast",
       "🥣 Oats + Nuts + Seeds",
       "🍓 Greek Yogurt + Berries",
       "🥑 Avocado Egg Toast"]
  | .NonVegetarian, .Lunch =>
      ["🍗 Grilled Chicken + Brown Rice",
       "🐟 Fish Curry + Millet",
       "🥗 Chicken Salad + Olive Oil",
       "🍛 Egg Curry + Multigrain Roti"]
  | .NonVegetarian, .Dinner =>
      ["🍲 Chicken Soup + Veggies",
       "🐟 Grilled Fish + Salad",
       "🥗 Egg Bhurji + Sauteed Veggies",
       "🍗 Stir Fry Chicken Bowl"]
  | .NonVegetarian, .Snacks =>
      ["🥜 Mixed Nuts",
       "🥚 Boiled Egg",
       "🍎 Apple + Peanut Butter",
       "🍵 Green Tea + Seeds Mix"]

/-- One day's meal assignments (the per-day dictionary of lines 520-525). -/
structure MealDay where
  breakfast : String
  lunch : String
  dinner : String
  snacks : String
deriving DecidableEq

/-- One day of `generate_food_plan`, with one explicit draw per meal type. -/
def genDay (pref : Pref) (c : MealType → Nat) : MealDay where
  breakfast := choiceOf (foodDb pref .Breakfast) (c .Breakfast)
  lunch := choiceOf (foodDb pref .Lunch) (c .Lunch)
  dinner := choiceOf (foodDb pref .Dinner) (c .Dinner)
  snacks := choiceOf (foodDb pref .Snacks) (c .Snacks)

/-- `generate_food_plan` (lines 516-528). -/
def generateFoodPlan (pref : Pref) (c : Nat → MealType → Nat) : List MealDay :=
  (List.range days.length).map (fun i => genDay pref (c i))

/-- Overwrite one meal-type entry of one day, as the per-meal `Change`
button does (lines 563-570). -/
def MealDay.setType (d : MealDay) (mt : MealType) (v : String) : MealDay :=
  match mt with
  | .Breakfast => { d with breakfast := v }
  | .Lunch => { d with lunch := v }
  | .Dinner => { d with dinner := v }
  | .Snacks => { d with snacks := v }

/-- Replace meal type `mt` of day `i` in a weekly food plan. -/
def setMeal (fp : List MealDay) (i : Nat) (mt : MealType) (v : String) : List MealDay :=
  match fp.get? i with
  | some d => fp.set i (d.setType mt v)
  | none => fp

/-! ## Session state and the wizard (apps.py lines 47-48, 167-655) -/

/-- The `st.session_state` dictionary: each key the script ever reads or
writes, `none` when the key is absent.  `step` is initialized to 1 by the
step controller on lines 47-48; every other key starts absent. -/
structure SessionState where
  step : Nat
  user_name : Option String
  pred : Option Nat
  prob : Option ℚ
  bmi : Option ℚ
  weekly_plan : Option (List String)
  progress_tracker : Option (List Bool)
  weekly_food_plan : Option (List MealDay)
  food_list : Option (List String)
deriving DecidableEq

/-- Python's `str.strip()`: drop leading and trailing whitespace. -/
def strip (s : String) : String :=
  String.mk
    (((s.toList.dropWhile fun c => c.isWhitespace).reverse.dropWhile
        fun c => c.isWhitespace).reverse)

/-- The session state of a fresh session. -/
def initialState : SessionState :=
  { step := 1, user_name := none, pred := none, prob := none, bmi := none,
    weekly_plan := none, progress_tracker := none, weekly_food_plan := none,
    food_list := none }

/-- The `Predict` handler of step 3 (lines 217-240). -/
def predictHandler (m : RFModel) (a : Answers) (s : SessionState) : SessionState :=
  { s with pred := some (predict m (toFeatureVec a)),
           prob := some (predictProbaPct m (toFeatureVec a)),
           bmi := some (bmi a.weight a.height),
           step := 4 }

/-- Rendering step 5 initializes the weekly plan and the progress tracker
when the keys are absent (lines 380-384). -/
def initExercise (s : SessionState) (level : Level) (c : Nat → Nat) : SessionState :=
  let s1 :=
    match s.weekly_plan with
    | none => { s with weekly_plan := some (generateWeekPlan level c) }
    | some _ => s
  match s1.progress_tracker with
  | none => { s1 with progress_tracker := some (List.replicate 7 false) }
  | some _ => s1

/-- The state-mutating user interactions of the wizard.  Random draws and
the currently selected radio values travel with the event; the abstract
fitted model travels with the `Predict` event. -/
inductive Event where
  | submitName (n : String)
  | startAssessment
  | predictBtn (m : RFModel) (a : Answers)
  | nextExercise
  | visitExercise (level : Level) (c : Nat → Nat)
  | changeEx (level : Level) (i catDraw exDraw : Nat)
  | toggleDone (i : Nat) (v : Bool)
  | regenWeek (level : Level) (c : Nat → Nat)
  | nextDiet
  | visitDiet (pref : Pref) (c : Nat → MealType → Nat)
  | changeMeal (pref : Pref) (i : Nat) (mt : MealType) (k : Nat)
  | regenFood (pref : Pref) (c : Nat → MealType → Nat)
  | toSummary
  | download
  | startOver

/-- One wizard transition.  Each case is guarded by the step on which the
source renders the corresponding widget; the `download` render of step 7
performs no session-state write (lines 644-651), and `Start Over` clears
the whole session (lines 653-655), after which the step controller
reinitializes it. -/
def stepEvent (s : SessionState) (e : Event) : SessionState :=
  match e with
  | .submitName n =>
      if s.step = 1 ∧ strip n ≠ "" then { s with user_name := some n, step := 2 } else s
  | .startAssessment => if s.step = 2 then { s with step := 3 } else s
  | .predictBtn m a => if s.step = 3 then predictHandler m a s else s
  | .nextExercise => if s.step = 4 then { s with step := 5 } else s
  | .visitExercise level c => if s.step = 5 then initExercise s level c else s
  | .changeEx level i catDraw exDraw =>
      if s.step = 5 then
        { s with weekly_plan := s.weekly_plan.map (fun p => changeExercise level p i catDraw exDraw) }
      else s
  | .toggleDone i v =>
      if s.step = 5 then
        { s with progress_tracker := s.progress_tracker.map (fun t => t.set i v) }
      else s
  | .regenWeek level c =>
      if s.step = 5 then
        { s with weekly_plan := some (generateWeekPlan level c),
                 progress_tracker := some (List.replicate 7 false) }
      else s
  | .nextDiet => if s.step = 5 then { s with step := 6 } else s
  | .visitDiet pref c =>
      if s.step = 6 ∧ s.weekly_food_plan = none then
        { s with weekly_food_plan := some (generateFoodPlan pref c) }
      else s
  | .changeMeal pref i mt k =>
      if s.step = 6 then
        { s with weekly_food_plan :=
            s.weekly_food_plan.map (fun fp => setMeal fp i mt (choiceOf (foodDb pref mt) k)) }
      else s
  | .regenFood pref c =>
      if s.step = 6 then { s with weekly_food_plan := some (generateFoodPlan pref c) } else s
  | .toSummary => if s.step = 6 then { s with step := 7 } else s
  | .download => s
  | .startOver => if s.step = 7 then initialState else s

/-- The session states the wizard can actually produce. -/
def Reaches (s : SessionState) : Prop :=
  ∃ es : List Event, s = es.foldl stepEvent initialState

/-! ## The report exporter (`generate_pdf`, apps.py lines 143-162) -/

/-- Two-decimal rendering used for the report's format strings, on exact
rationals: round to the nearest hundredth. -/
def fmt2 (q : ℚ) : String :=
  let n : ℤ := round (q * 100)
  let sign := if n < 0 then "-" else ""
  let m := n.natAbs
  sign ++ toString (m / 100) ++ "." ++ (if m % 100 < 10 then "0" else "") ++ toString (m % 100)

/-- `generate_pdf` (lines 143-162) as the list of paragraph texts it builds,
in order (the two `Spacer` elements carry no text).  Reading an absent
session key raises, which is modelled as `Except.error` naming the key; the
reads happen in source order: `prob` (line 152), `bmi` (line 153),
`food_list` (line 157). -/
def generate_pdf (s : SessionState) (user_name : String) : Except String (List String) :=
  match s.prob with
  | none => Except.error "prob"
  | some prob =>
    match s.bmi with
    | none => Except.error "bmi"
    | some b =>
      match s.food_list with
      | none => Except.error "food_list"
      | some foods =>
        Except.ok
          (["PCOS Health Report",
            "Patient Name: " ++ user_name,
            "Risk Probability: " ++ fmt2 prob ++ "%",
            "BMI: " ++ fmt2 b,
            "Recommended Diet Plan:"] ++ foods.map (fun food => "- " ++ food))

/-! ## Concrete sessions used to witness the theorems -/

/-- A model that assigns positive-class probability 0 to every input. -/
def m0 : RFModel where
  proba1 := fun _ => 0
  nonneg := fun _ => le_refl 0
  le_one := fun _ => zero_le_one

/-- A model that assigns positive-class probability 1/2 to every input. -/
def halfModel : RFModel where
  proba1 := fun _ => 1 / 2
  nonneg := fun _ => by norm_num
  le_one := fun _ => by norm_num

/-- The slider and select-box defaults of step 3. -/
def demoAnswers : Answers :=
  { age := 25, weight := 60, height := 160, sleep := 7, exercise_minutes := 30,
    family := false, menstrual := false, hormonal := false, hirsutism := false,
    mental := false, insulin := false, diabetes := false, smoking := false }

/-- A full pass through the wizard, with every random draw fixed to 0. -/
def demoEvents : List Event :=
  [.submitName "Asha", .startAssessment, .predictBtn m0 demoAnswers, .nextExercise,
   .visitExercise .Beginner (fun _ => 0), .nextDiet,
   .visitDiet .Vegetarian (fun _ _ => 0), .toSummary]

/-- The session state after the full pass, sitting on the summary step. -/
def demoS7 : SessionState := demoEvents.foldl stepEvent initialState

/-- The session state after reaching the exercise step and generating the
beginner plan. -/
def demoS5 : SessionState := (demoEvents.take 5).foldl stepEvent initialState

/-- The session state after reaching the input step. -/
def demoS3 : SessionState := (demoEvents.take 2).foldl stepEvent initialState

/-- The beginner weekly plan with every draw fixed to 0. -/
def demoPlanB : List String := generateWeekPlan .Beginner (fun _ => 0)

/-- A summary-step session whose `food_list` key is absent, as every
wizard-reached summary session's is. -/
def errS7 : SessionState :=
  { step := 7, user_name := some "Mira", pred := some 1, prob := some 61, bmi := some 25,
    weekly_plan := some demoPlanB, progress_tracker := some (List.replicate 7 false),
    weekly_food_plan := none, food_list := none }

/-- A valid raw dataset row in which every cell is recognized. -/
def demoRow : RawRow :=
  { pcos := "Yes", age := "25", weight_kg := "60", sleep_hours := "6-8 hours",
    exercise_duration := "30 minutes", family_history_pcos := "No",
    menstrual_irregularity := "No", hormonal_imbalance := "No", hirsutism := "No",
    mental_health := "No", insulin_resistance := "No", diabetes := "No", smoking := "No" }

/-! ## Shared helper lemmas -/

/-- A draw from a non-empty list lands in the list. -/
theorem choiceOf_mem (l : List String) (k : Nat) (h : l ≠ []) : choiceOf l k ∈ l := by
  have hlen : 0 < l.length := List.length_pos.mpr h
  have hm : k % l.length < l.length := Nat.mod_lt _ hlen
  unfold choiceOf
  rw [List.getD_eq_getElem l "" hm]
  exact List.getElem_mem hm

/-- Every element of the list is produced by some draw. -/
theorem choiceOf_surj (l : List String) (x : String) (hx : x ∈ l) :
    ∃ k, choiceOf l k = x := by
  obtain ⟨n, hn, he⟩ := List.mem_iff_getElem.mp hx
  refine ⟨n, ?_⟩
  unfold choiceOf
  rw [Nat.mod_eq_of_lt hn, List.getD_eq_getElem l "" hn, he]

/-- Slot `i` of the generated weekly plan is the per-day sample at the
day's own draw. -/
theorem generateWeekPlan_getD (level : Level) (c : Nat → Nat) (i : Nat) (h : i < 7) :
    (generateWeekPlan level c).getD i "" = planDay level i (c i) := by
  interval_cases i <;> rfl

/-- A non-empty column has a median. -/
theorem median_isSome (l : List ℚ) (h : l ≠ []) : (median l).isSome = true := by
  cases l with
  | nil => exact absurd rfl h
  | cons x xs => rfl

/-- Every category pool of every tier is non-empty. -/
theorem exercisePool_ne_nil (level : Level) (cat : Category) :
    exercisePool level cat ≠ [] := by
  cases level <;> cases cat <;> simp [exercisePool]

/-! ## Claims -/

/-- C5: for every weight and height accepted by the input sliders, the
`Predict` handler stores `weight / (height/100)^2` as the BMI, the stored
BMI does not depend on the classifier or on the rest of the session state,
and in particular `bmi 60 160 = 23.4375` exactly. -/
theorem c5_bmi_formula (w h : ℚ) (hw1 : 35 ≤ w) (hw2 : w ≤ 120) (hh1 : 140 ≤ h)
    (hh2 : h ≤ 180) (m m2 : RFModel) (a : Answers) (s s2 : SessionState)
    (hs : s.step = 3) (hs2 : s2.step = 3) (ha : a.weight = w) (hb : a.height = h) :
    (stepEvent s (.predictBtn m a)).bmi = some (w / ((h / 100) ^ 2))
  ∧ (stepEvent s (.predictBtn m a)).bmi = (stepEvent s2 (.predictBtn m2 a)).bmi
  ∧ bmi 60 160 = 23.4375 := by
  refine ⟨?_, ?_, by norm_num [bmi]⟩
  · simp [stepEvent, hs, predictHandler, bmi, ha, hb]
  · simp [stepEvent, hs, hs2, predictHandler]

theorem c5_witness :
    ((35 : ℚ) ≤ 60 ∧ (60 : ℚ) ≤ 120 ∧ (140 : ℚ) ≤ 160 ∧ (160 : ℚ) ≤ 180 ∧ demoS3.step = 3)
  ∧ (stepEvent demoS3 (.predictBtn m0 demoAnswers)).bmi = some (60 / ((160 / 100) ^ 2)) :=
  ⟨⟨by norm_num, by norm_num, by norm_num, by norm_num, by decide⟩,
   (c5_bmi_formula 60 160 (by norm_num) (by norm_num) (by norm_num) (by norm_num)
      m0 m0 demoAnswers demoS3 demoS3 (by decide) (by decide) rfl rfl).1⟩

/-- C7: at the exercise step, full-week regeneration stores a freshly
generated plan whose slot `i` depends only on draw `i`, and resets all 7
per-day completion flags to false. -/
theorem c7_full_regen (s : SessionState) (level : Level) (c : Nat → Nat) (h : s.step = 5) :
    (stepEvent s (.regenWeek level c)).weekly_plan = some (generateWeekPlan level c)
  ∧ (stepEvent s (.regenWeek level c)).progress_tracker = some (List.replicate 7 false)
  ∧ (∀ c2 : Nat → Nat, ∀ i, i < 7 → c i = c2 i →
      (generateWeekPlan level c).getD i "" = (generateWeekPlan level c2).getD i "") := by
  refine ⟨by simp [stepEvent, h], by simp [stepEvent, h], ?_⟩
  intro c2 i hi hc
  rw [generateWeekPlan_getD level c i hi, generateWeekPlan_getD level c2 i hi, hc]

theorem c7_witness :
    demoS5.step = 5
  ∧ (stepEvent demoS5 (.regenWeek .Advanced (fun _ => 1))).progress_tracker =
      some (List.replicate 7 false) :=
  ⟨by decide, (c7_full_regen demoS5 .Advanced (fun _ => 1) (by decide)).2.1⟩

/-- C8: when the export fails at the summary step, the failure aborts only
the export: the step-7 render writes no session key, so the whole session
state (step, name, prediction, BMI, plans, flags) is unchanged and a retry
reproduces the same result. -/
theorem c8_export_failure_keeps_state (s : SessionState) (msg : String) (h7 : s.step = 7)
    (hfail : generate_pdf s (s.user_name.getD "") = Except.error msg) :
    stepEvent s .download = s
  ∧ (stepEvent s .download).step = s.step
  ∧ (stepEvent s .download).user_name = s.user_name
  ∧ (stepEvent s .download).pred = s.pred
  ∧ (stepEvent s .download).prob = s.prob
  ∧ (stepEvent s .download).bmi = s.bmi
  ∧ (stepEvent s .download).weekly_plan = s.weekly_plan
  ∧ (stepEvent s .download).progress_tracker = s.progress_tracker
  ∧ (stepEvent s .download).weekly_food_plan = s.weekly_food_plan
  ∧ generate_pdf (stepEvent s .download) ((stepEvent s .download).user_name.getD "") =
      Except.error msg :=
  ⟨rfl, rfl, rfl, rfl, rfl, rfl, rfl, rfl, rfl, hfail⟩

theorem c8_witness :
    (errS7.step = 7 ∧ generate_pdf errS7 (errS7.user_name.getD "") = Except.error "food_list")
  ∧ stepEvent errS7 .download = errS7 :=
  ⟨⟨rfl, rfl⟩, (c8_export_failure_keeps_state errS7 "food_list" rfl rfl).1⟩

/-- C10: once a weekly exercise plan is stored, rendering the exercise step
with any selected fitness level (in particular a different one) leaves the
stored plan untouched, so the displayed entries can come from a previously
selected tier's pools. -/
theorem c10_level_change_keeps_plan (s : SessionState) (p : List String)
    (h : s.weekly_plan = some p) (level : Level) (c : Nat → Nat) :
    (stepEvent s (.visitExercise level c)).weekly_plan = some p := by
  have hinit : (initExercise s level c).weekly_plan = some p := by
    unfold initExercise
    rw [h]
    cases htr : s.progress_tracker <;> simp [htr, h]
  by_cases h5 : s.step = 5
  · simpa [stepEvent, h5] using hinit
  · simpa [stepEvent, h5] using h

theorem c10_witness :
    demoS5.weekly_plan = some demoPlanB
  ∧ (stepEvent demoS5 (.visitExercise .Advanced (fun _ => 1))).weekly_plan = some demoPlanB :=
  ⟨by decide, c10_level_change_keeps_plan demoS5 demoPlanB (by decide) .Advanced (fun _ => 1)⟩

/-- C2 fails as stated: at positive-class probability exactly 1/2 the
returned percentage is 50, so `probability ≥ 50%` holds, yet the argmax
label (ties to the first class, 0) is not 1. -/
theorem c2_counterexample :
    ¬ ((50 ≤ predictProbaPct halfModel (toFeatureVec demoAnswers)) ↔
        predict halfModel (toFeatureVec demoAnswers) = 1) := by
  have h1 : predictProbaPct halfModel (toFeatureVec demoAnswers) = 50 := by
    norm_num [predictProbaPct, halfModel]
  have h2 : predict halfModel (toFeatureVec demoAnswers) = 0 := by
    norm_num [predict, halfModel]
  intro hiff
  have h3 := hiff.mp (le_of_eq h1.symm)
  rw [h2] at h3
  exact Nat.zero_ne_one h3

/-- C2 amended: one scoring call is consistent up to the tie: the label is
1 exactly when the probability is strictly above 50%, and at exactly 50%
the label is 0. -/
theorem c2_label_threshold (m : RFModel) (x : List ℚ) :
    (50 < predictProbaPct m x ↔ predict m x = 1)
  ∧ (predictProbaPct m x = 50 → predict m x = 0) := by
  unfold predict predictProbaPct
  by_cases hp : 1 - m.proba1 x < m.proba1 x
  · rw [if_pos hp]
    exact ⟨⟨fun _ => rfl, fun _ => by linarith⟩, fun h50 => by exfalso; linarith⟩
  · rw [if_neg hp]
    push_neg at hp
    exact ⟨⟨fun hgt => by exfalso; linarith, fun h01 => absurd h01 (by norm_num)⟩,
           fun _ => rfl⟩

theorem c2_witness :
    predictProbaPct halfModel (toFeatureVec demoAnswers) = 50
  ∧ predict halfModel (toFeatureVec demoAnswers) = 0 :=
  ⟨by norm_num [predictProbaPct, halfModel],
   (c2_label_threshold halfModel (toFeatureVec demoAnswers)).2
     (by norm_num [predictProbaPct, halfModel])⟩

/-- C3 fails as stated: on the freshly generated beginner plan, whose
Monday slot was drawn from the Cardio pool, one `Change Exercise` press on
Monday with category draw 1 stores a Strength entry — not a draw from the
same pool as that slot. -/
theorem c3_counterexample :
    demoPlanB.getD 0 "" ∈ exercisePool .Beginner .Cardio
  ∧ (changeExercise .Beginner demoPlanB 0 1 0).getD 0 "" ∉ exercisePool .Beginner .Cardio :=
  ⟨by decide, by decide⟩

/-- C3 amended: regenerating day `i` draws a uniformly random category among
Cardio, Strength and Flexibility — independent of the slot's own category,
Sunday included — then a uniform draw from that category's pool of the
currently selected tier, and leaves every other day unchanged. -/
theorem c3_change_exercise (level : Level) (plan : List String) (i catDraw exDraw : Nat)
    (hi : i < plan.length) :
    (changeExercise level plan i catDraw exDraw).length = plan.length
  ∧ (∀ j, j ≠ i → (changeExercise level plan i catDraw exDraw).getD j "" = plan.getD j "")
  ∧ (changeExercise level plan i catDraw exDraw).getD i "" =
      choiceOf (exercisePool level (categories.getD (catDraw % 3) .Cardio)) exDraw
  ∧ (∀ x ∈ exercisePool level (categories.getD (catDraw % 3) .Cardio),
      ∃ k, (changeExercise level plan i catDraw k).getD i "" = x) := by
  refine ⟨List.length_set plan i _, ?_, ?_, ?_⟩
  · intro j hj
    unfold changeExercise
    rw [List.getD_eq_getElem?_getD, List.getElem?_set_ne (Ne.symm hj),
        ← List.getD_eq_getElem?_getD]
  · unfold changeExercise
    rw [List.getD_eq_getElem?_getD, List.getElem?_set_eq_of_lt _ hi]
    rfl
  · intro x hx
    obtain ⟨k, hk⟩ :=
      choiceOf_surj (exercisePool level (categories.getD (catDraw % 3) .Cardio)) x hx
    refine ⟨k, ?_⟩
    unfold changeExercise
    rw [List.getD_eq_getElem?_getD, List.getElem?_set_eq_of_lt _ hi]
    exact hk

theorem c3_witness :
    0 < demoPlanB.length
  ∧ (changeExercise .Beginner demoPlanB 0 1 0).getD 0 "" =
      choiceOf (exercisePool .Beginner (categories.getD (1 % 3) .Cardio)) 0 :=
  ⟨by decide, (c3_change_exercise .Beginner demoPlanB 0 1 0 (by decide)).2.2.1⟩

/-- The wizard run of `demoEvents` up to the exercise step, followed by one
`Change Exercise` press on the Sunday card with category draw 0 and
exercise draw 0. -/
def c4Events : List Event :=
  demoEvents.take 5 ++ [.changeEx .Beginner 6 0 0]

/-- The session state that run produces. -/
def c4State : SessionState := c4Events.foldl stepEvent initialState

/-- C4 fails as stated: a weekly plan held in session state after one
`Change Exercise` press on Sunday no longer has the fixed active-recovery
entry in its Sunday slot. -/
theorem c4_counterexample :
    c4State.weekly_plan.isSome = true
  ∧ (c4State.weekly_plan.getD []).getD 6 "" ≠ sundayWorkout :=
  ⟨by decide, by decide⟩

/-- C4 amended: every plan produced by `generate_week_plan` — at
initialization and at full-week regeneration — has the fixed
active-recovery Sunday entry regardless of tier, and each of the other six
days' entries drawn from the category given by day-index modulo 3, every
entry of that category's pool being reachable by some draw; single-day
`Change Exercise` presses can break this invariant. -/
theorem c4_generated_plan_invariant (level : Level) (c : Nat → Nat) :
    (generateWeekPlan level c).getD 6 "" = sundayWorkout
  ∧ (∀ i, i < 6 → (generateWeekPlan level c).getD i "" ∈ exercisePool level (dayCategory i))
  ∧ (∀ i, i < 6 → ∀ x ∈ exercisePool level (dayCategory i), ∃ k, planDay level i k = x) := by
  refine ⟨rfl, ?_, ?_⟩
  · intro i hi
    rw [generateWeekPlan_getD level c i (by omega)]
    interval_cases i <;> exact choiceOf_mem _ _ (exercisePool_ne_nil level _)
  · intro i hi x hx
    interval_cases i <;>
      · obtain ⟨k, hk⟩ := choiceOf_surj _ x hx
        exact ⟨k, hk⟩

theorem c4_witness :
    (0 : Nat) < 6
  ∧ (generateWeekPlan .Beginner (fun _ => 0)).getD 0 "" ∈
      exercisePool .Beginner (dayCategory 0) :=
  ⟨by decide, (c4_generated_plan_invariant .Beginner (fun _ => 0)).2.1 0 (by decide)⟩

/-- Rendering the exercise step never writes the `food_list` key. -/
theorem initExercise_food_list (s : SessionState) (level : Level) (c : Nat → Nat) :
    (initExercise s level c).food_list = s.food_list := by
  unfold initExercise
  cases hw : s.weekly_plan <;> simp only [hw] <;>
    cases ht : s.progress_tracker <;> simp [ht]

/-- No wizard transition ever writes the `food_list` key. -/
theorem stepEvent_food_list (s : SessionState) (e : Event) (h : s.food_list = none) :
    (stepEvent s e).food_list = none := by
  cases e <;> simp only [stepEvent, predictHandler] <;> (try split) <;>
    simp [initExercise_food_list, initialState, h]

/-- The `food_list` key stays absent along every event sequence. -/
theorem foldl_food_list (es : List Event) (s : SessionState) (h : s.food_list = none) :
    (es.foldl stepEvent s).food_list = none := by
  induction es generalizing s with
  | nil => exact h
  | cons e rest ih => exact ih _ (stepEvent_food_list s e h)

/-- C9: every session the wizard's transitions can bring to the summary
step has no `food_list` key — no step ever writes it — so the report
generator, which reads that key, raises on every such session. -/
theorem c9_export_always_fails (s : SessionState) (hs : Reaches s) (h7 : s.step = 7) :
    s.food_list = none ∧ ∀ n, ∃ msg, generate_pdf s n = Except.error msg := by
  obtain ⟨es, rfl⟩ := hs
  have hf : (es.foldl stepEvent initialState).food_list = none :=
    foldl_food_list es initialState rfl
  refine ⟨hf, fun n => ?_⟩
  cases hp : (es.foldl stepEvent initialState).prob with
  | none => exact ⟨"prob", by unfold generate_pdf; rw [hp]⟩
  | some p =>
    cases hb : (es.foldl stepEvent initialState).bmi with
    | none => exact ⟨"bmi", by unfold generate_pdf; rw [hp, hb]⟩
    | some b => exact ⟨"food_list", by unfold generate_pdf; rw [hp, hb, hf]⟩

theorem c9_witness :
    demoS7.step = 7 ∧ demoS7.food_list = none
  ∧ ∃ msg, generate_pdf demoS7 "Asha" = Except.error msg :=
  ⟨by decide, (c9_export_always_fails demoS7 ⟨demoEvents, rfl⟩ (by decide)).1,
   (c9_export_always_fails demoS7 ⟨demoEvents, rfl⟩ (by decide)).2 "Asha"⟩

/-- C6: every raw row retained by the label filtering normalizes to exactly
12 entries, all numeric, provided every feature column has at least one
coercible value to take a median from; a missing or uncoercible cell
receives exactly its column's median; yes/no cells map case-insensitively
to 1 and 0, the age is the first run of decimal digits, and the sleep and
exercise buckets map through the fixed lookup tables. -/
theorem c6_normalization (rows : List RawRow) (r : RawRow) (hr : r ∈ retained rows)
    (hcols : ∀ j, j < 12 → columnVals (retained rows) j ≠ []) :
    (normalizeRow rows r).length = 12
  ∧ (∀ v ∈ normalizeRow rows r, v.isSome = true)
  ∧ (∀ j, j < 12 → (coerceRow r).getD j none = none →
      normalizeCell rows r j = median (columnVals (retained rows) j))
  ∧ mapYesNo "Yes" = some 1 ∧ mapYesNo "YES" = some 1 ∧ mapYesNo "nO" = some 0
  ∧ mapYesNo "maybe" = none
  ∧ extractAge "25 years" = some 25 ∧ extractAge "old" = none
  ∧ sleepValue "6-8 hours" = some 7 ∧ exerciseValue "More than 1 hour" = some 75 := by
  refine ⟨by simp [normalizeRow], ?_, ?_, by decide, by decide, by decide, by decide,
          by decide, by decide, by decide, by decide⟩
  · intro v hv
    simp only [normalizeRow, List.mem_map, List.mem_range] at hv
    obtain ⟨j, hj, rfl⟩ := hv
    unfold normalizeCell fillCell
    cases hc : (coerceRow r).getD j none with
    | some w => simp [hc]
    | none =>
        simp only [hc]
        exact median_isSome _ (hcols j hj)
  · intro j hj hmiss
    unfold normalizeCell fillCell
    rw [hmiss]

theorem c6_witness :
    (demoRow ∈ retained [demoRow] ∧ ∀ j, j < 12 → columnVals (retained [demoRow]) j ≠ [])
  ∧ (normalizeRow [demoRow] demoRow).length = 12 :=
  ⟨⟨by decide, by decide⟩,
   (c6_normalization [demoRow] demoRow (by decide) (by decide)).1⟩

/-- C1 fails as stated: on a terminal session state actually reached
through the wizard, the exporter produces no document at all — it fails
reading the absent `food_list` key — and in particular no paginated
document containing the weekly exercise and meal assignments. -/
theorem c1_counterexample : generate_pdf demoS7 "Asha" = Except.error "food_list" := rfl

/-- C1 amended: the exporter reads the patient name, the risk probability,
the BMI and the `food_list` key.  When `food_list` is present its output is
exactly the title, the name line, the probability line, the BMI line, the
diet-plan heading and one line per `food_list` entry — it contains neither
the 7 weekly exercise lines nor the 7×4 weekly meal lines; when
`food_list` is absent, as it is on every wizard-reached session, the
export fails. -/
theorem c1_export_content (s : SessionState) (name : String) (p b : ℚ)
    (foods : List String) (hp : s.prob = some p) (hb : s.bmi = some b)
    (hf : s.food_list = some foods) :
    generate_pdf s name = Except.ok
      (["PCOS Health Report",
        "Patient Name: " ++ name,
        "Risk Probability: " ++ fmt2 p ++ "%",
        "BMI: " ++ fmt2 b,
        "Recommended Diet Plan:"] ++ foods.map (fun food => "- " ++ food))
  ∧ (∀ doc, generate_pdf s name = Except.ok doc → doc.length = 5 + foods.length)
  ∧ (∀ s2 : SessionState, s2.prob = some p → s2.bmi = some b → s2.food_list = none →
      generate_pdf s2 name = Except.error "food_list") := by
  have hmain : generate_pdf s name = Except.ok
      (["PCOS Health Report",
        "Patient Name: " ++ name,
        "Risk Probability: " ++ fmt2 p ++ "%",
        "BMI: " ++ fmt2 b,
        "Recommended Diet Plan:"] ++ foods.map (fun food => "- " ++ food)) := by
    unfold generate_pdf
    rw [hp, hb, hf]
  refine ⟨hmain, ?_, ?_⟩
  · intro doc hdoc
    rw [hmain] at hdoc
    cases hdoc
    simp
    omega
  · intro s2 hp2 hb2 hf2
    unfold generate_pdf
    rw [hp2, hb2, hf2]

theorem c1_witness :
    (errS7.prob = some 61 ∧ errS7.bmi = some 25)
  ∧ generate_pdf { errS7 with food_list := some ["🥗 salad"] } "Mira" = Except.ok
      (["PCOS Health Report",
        "Patient Name: " ++ "Mira",
        "Risk Probability: " ++ fmt2 61 ++ "%",
        "BMI: " ++ fmt2 25,
        "Recommended Diet Plan:"] ++ ["🥗 salad"].map (fun food => "- " ++ food)) :=
  ⟨⟨rfl, rfl⟩,
   (c1_export_content { errS7 with food_list := some ["🥗 salad"] } "Mira" 61 25
      ["🥗 salad"] rfl rfl rfl).1⟩

end PCOS
